import Mathlib

/-!
Verification development for the InfiniLM CPU transformer forward pipeline
(`transformer-cpu/src/lib.rs`), the NVIDIA kernel construction
(`devices/nvidia-gpu/src/lib.rs`) and the web serving error schema
(`web-api/src/schemas.rs`).

The tensor pipeline is shallowly embedded: a tensor's data is a total
indexing function (`Ten2`, `Ten3`); slicing, splitting, transposing and
reshaping are embedded as the index transformations they perform on the
underlying buffer, together with the validity checks of the tensor-view
contract.  Backend numeric primitives (`sqrt`, `exp`, `cos`, `sin`, powers)
are collected in a `Scalars` record so every pipeline definition is a
computable function of an exact field; the record is instantiated with the
real functions for numeric statements.
-/

/-- Scalar data types of the tensor library (`tensor::DataType`), restricted
to the constructors this code distinguishes. -/
inductive DataType where
  | F16
  | BF16
  | F32
  | F64
  | U32
deriving DecidableEq

/-- Failures of a forward call.  The first four are the failure modes of the
tensor-view contract (spec 4.1; the `tensor` crate itself is not under
`src/`, so they are modelled from the spec).  `SequenceTooLong` and
`InvalidHeadConfig` are error names that appear only in the spec's pipeline
contract (spec 4.4); they are included so the claims mentioning them can be
stated and compared against what the code actually does. -/
inductive PipeError where
  | OutOfBounds
  | SizeMismatch
  | NotContiguous
  | InvalidPermutation
  | ShapeMismatch
  | SequenceTooLong
  | InvalidHeadConfig
deriving DecidableEq

/-- Matrix-shaped tensor data: a total indexing function (row, column). -/
def Ten2 (α : Type) : Type := Nat → Nat → α

/-- Three-dimensional tensor data (batch/head, row, column). -/
def Ten3 (α : Type) : Type := Nat → Nat → Nat → α

/-- The transcendental primitives of the numeric kernels, abstracted so the
pipeline is a computable function over any exact field. -/
structure Scalars (α : Type) where
  sqrt : α → α
  expf : α → α
  cosf : α → α
  sinf : α → α
  powf : α → α → α

section Pipeline

variable {α : Type} [Field α] [LinearOrder α]

/-- Sum of `f 0 + ... + f (n-1)`, the reduction used by the kernels. -/
def sumR : Nat → (Nat → α) → α
  | 0, _ => 0
  | n + 1, f => sumR n f + f n

/-- Maximum of `f 0, ..., f (n-1)` (with `f 0` for an empty row), the
max-subtraction step of the numerically stable softmax. -/
def maxR : Nat → (Nat → α) → α
  | 0, f => f 0
  | n + 1, f => max (maxR n f) (f n)

/-- `kernel::gather`: copies the embedding-table row of each token id into
the output row (spec 4.2). -/
def gather (table : Ten2 α) (tokens : List Nat) : Ten2 α :=
  fun i j => table (tokens.getD i 0) j

/-- `kernel::rms_norm`: `out[i] = in[i] / sqrt(mean(in[i]^2) + eps) * w`
(spec 4.2), reducing over the last dimension of length `d`. -/
def rms_norm (S : Scalars α) (d : Nat) (eps : α) (w : Nat → α) (x : Ten2 α) : Ten2 α :=
  fun i j => x i j / S.sqrt (sumR d (fun t => x i t * x i t) / (d : α) + eps) * w j

/-- `kernel::matmul` on matrices, with the source's argument order
`(c, beta, a, b, alpha)`: `c = alpha * (a @ b) + beta * c`; the inner
dimension `k` is passed explicitly (spec 4.2). -/
def matmul2 (k : Nat) (c : Ten2 α) (beta : α) (a b : Ten2 α) (alpha : α) : Ten2 α :=
  fun i j => alpha * sumR k (fun t => a i t * b t j) + beta * c i j

/-- Batched `kernel::matmul` over a shared leading (head) dimension. -/
def matmul3 (k : Nat) (c : Ten3 α) (beta : α) (a b : Ten3 α) (alpha : α) : Ten3 α :=
  fun h i j => alpha * sumR k (fun t => a h i t * b h t j) + beta * c h i j

/-- `kernel::rotary_embedding` on a `[seq, heads, dh]` tensor: each adjacent
coordinate pair `(2p, 2p+1)` of the head dimension is rotated by the angle
`position * theta ^ (-2p/dh)` (spec 4.2); `posv i` is the absolute position
of token row `i`. -/
def rotary_embedding (S : Scalars α) (dh : Nat) (posv : Nat → Nat) (theta : α)
    (x : Ten3 α) : Ten3 α :=
  fun i h c =>
    let p := c / 2
    let ang := (posv i : α) * S.powf theta (-(((2 * p : Nat) : α) / (dh : α)))
    if c % 2 = 0 then x i h c * S.cosf ang - x i h (c + 1) * S.sinf ang
    else x i h (c - 1) * S.sinf ang + x i h c * S.cosf ang

/-- One row of the numerically stable softmax: subtract the row maximum,
exponentiate, normalize (spec 4.2). -/
def softmaxRow (S : Scalars α) (n : Nat) (f : Nat → α) : Nat → α :=
  fun j => S.expf (f j - maxR n f) / sumR n (fun t => S.expf (f t - maxR n f))

/-- `kernel::softmax`: row-wise softmax over the last dimension of length
`n`.  Reshaping the leading dimensions (as the source does at the call site)
permutes rows without changing their contents, so the embedding applies the
row softmax directly. -/
def softmax (S : Scalars α) (n : Nat) (a : Ten3 α) : Ten3 α :=
  fun h i => softmaxRow S n (a h i)

/-- `kernel::swiglu` (spec 4.2): `gate[i] = silu(gate[i]) * up[i]` with
`silu(x) = x * sigmoid(x) = x / (1 + exp(-x))`.  The CPU forward pass never
invokes it; it is needed to state the spec's gated-MLP stage. -/
def swiglu (S : Scalars α) (gate up : Ten2 α) : Ten2 α :=
  fun i j => gate i j / (1 + S.expf (-(gate i j))) * up i j

/-- Reshape of a contiguous three-dimensional tensor that regroups the two
leading dimensions, keeping the row-major order of rows: the flattened row
index `h * bNew + r` of the new shape addresses row `(R / bOld, R % bOld)`
of the old shape. -/
def reshape3 (bOld bNew : Nat) (t : Ten3 α) : Ten3 α :=
  fun h r c => t ((h * bNew + r) / bOld) ((h * bNew + r) % bOld) c

/-- Writing a `[heads, len, dh]` tensor into the position slice
`[*, pos .. pos+len, *]` of a cache tensor: positions inside the slice take
the new rows, all others keep the old contents. -/
def writeSlice (pos len : Nat) (src old : Ten3 α) : Ten3 α :=
  fun h p c => if pos ≤ p ∧ p < pos + len then src h (p - pos) c else old h p c

/-- A per-layer key/value cache (spec 3): two tensors of shape
`[num_kv_heads, max_seq_len, head_dim]`; the bound `max_seq_len` is the
capacity recorded in the tensor's shape. -/
structure LayerCache (α : Type) where
  max_seq_len : Nat
  k : Ten3 α
  v : Ten3 α

/-- The default used when a layer index misses the cache list (an
out-of-bounds `cache[layer]` panics in the source; the zero-capacity default
makes every subsequent slice fail, which is a faithful dead end). -/
def dfltCache : LayerCache α := ⟨0, fun _ _ _ => 0, fun _ _ _ => 0⟩

/-- The weight provider (`model_parameters::Llama2`, an external
collaborator): per-layer weights and hyperparameters, read-only (spec 6). -/
structure Model (α : Type) where
  hidden_size : Nat
  num_attention_heads : Nat
  num_key_value_heads : Nat
  intermediate_size : Nat
  num_hidden_layers : Nat
  max_position_embeddings : Nat
  rms_norm_eps : α
  rope_theta : α
  data_type : DataType
  embed_tokens : Ten2 α
  input_layernorm : Nat → Nat → α
  w_qkv : Nat → Ten2 α
  self_attn_o_proj : Nat → Ten2 α
  post_attention_layernorm : Nat → Nat → α
  mlp_gate_up : Nat → Ten2 α
  mlp_down_proj : Nat → Ten2 α

/-- Modelled from the spec: `LayerCache::new_layers` (`cache.rs` is not under
`src/`): one zero-initialized key/value pair per hidden layer, preallocated
to the model's maximum sequence length. -/
def new_cache (m : Model α) : List (LayerCache α) :=
  List.replicate m.num_hidden_layers
    ⟨m.max_position_embeddings, fun _ _ _ => 0, fun _ _ _ => 0⟩

/-- The state threaded through the layer loop of `Transformer::update`: the
mutable cache list and the residual stream `x0`. -/
structure PipeState (α : Type) where
  caches : List (LayerCache α)
  x0 : Ten2 α

/-- Lines 98-119 of `Transformer::update`: scaled scores
`q @ k^T * head_div` against the cache (read on `[0, att_len)`), row
softmax, and the weighted sum against the value cache. -/
def attention (S : Scalars α) (dh att_len : Nat) (head_div : α)
    (q3 kc vc : Ten3 α) : Ten3 α :=
  let scores := matmul3 dh (fun _ _ _ => 0) 0 q3 (fun h t j => kc h j t) head_div
  matmul3 att_len (fun _ _ _ => 0) 0 (softmax S att_len scores) vc 1

/-- Lines 66-75 of `Transformer::update`: the input norm of a layer. -/
def layerX1 (S : Scalars α) (model : Model α) (l : Nat) (x0 : Ten2 α) : Ten2 α :=
  rms_norm S model.hidden_size model.rms_norm_eps (model.input_layernorm l) x0

/-- Line 75: the fused QKV projection of the normed input, through the
transposed `w_qkv` weight, with `beta = 0` into a fresh buffer. -/
def layerQkv (S : Scalars α) (model : Model α) (l : Nat) (x0 : Ten2 α) : Ten2 α :=
  matmul2 model.hidden_size (fun _ _ => 0) 0 (layerX1 S model l x0)
    (fun i j => model.w_qkv l j i) 1

/-- Lines 76-87: the query head split (columns `[0, hidden_size)` of the
fused buffer, regrouped to `[seq, nh, dh]`), rotated by `rope` at the
absolute positions, then transposed to `[nh, seq, dh]`. -/
def layerQ5 (S : Scalars α) (model : Model α) (pos l : Nat) (x0 : Ten2 α) : Ten3 α :=
  let dh := model.hidden_size / model.num_attention_heads
  fun h i c =>
    rotary_embedding S dh (fun i => pos + i) model.rope_theta
      (fun i hh cc => layerQkv S model l x0 i (hh * dh + cc)) i h c

/-- Lines 76-88: the key head split (columns `[hidden_size,
hidden_size + kv_dim)`), rotated and transposed the same way. -/
def layerK5 (S : Scalars α) (model : Model α) (pos l : Nat) (x0 : Ten2 α) : Ten3 α :=
  let d := model.hidden_size
  let dh := d / model.num_attention_heads
  fun h i c =>
    rotary_embedding S dh (fun i => pos + i) model.rope_theta
      (fun i hh cc => layerQkv S model l x0 i (d + (hh * dh + cc))) i h c

/-- Lines 77-89: the value head split (last `kv_dim` columns), transposed;
no rotation is applied to values. -/
def layerV5 (S : Scalars α) (model : Model α) (l : Nat) (x0 : Ten2 α) : Ten3 α :=
  let d := model.hidden_size
  let dh := d / model.num_attention_heads
  let dkv := model.num_key_value_heads * dh
  fun h i c => layerQkv S model l x0 i (d + dkv + (h * dh + c))

/-- Lines 91-96: the layer cache after this call has written the rotated
key/value projections into the position slice `[*, pos .. pos+seq_len, *]`
of layer `l`; capacity and all other positions are carried over. -/
def layerKV (S : Scalars α) (model : Model α) (seq_len pos l : Nat) (s : PipeState α) :
    LayerCache α :=
  let kc0 := s.caches.getD l dfltCache
  ⟨kc0.max_seq_len,
    writeSlice pos seq_len (layerK5 S model pos l s.x0) kc0.k,
    writeSlice pos seq_len (layerV5 S model l s.x0) kc0.v⟩

/-- Lines 98-127: the residual stream after grouped-query attention and the
output projection (`beta = 1` accumulating into `x0`), reading the keys and
values from the cache written by this call. -/
def layerAttnX0 (S : Scalars α) (model : Model α) (seq_len pos l : Nat)
    (s : PipeState α) : Ten2 α :=
  let d := model.hidden_size
  let nh := model.num_attention_heads
  let dh := d / nh
  let head_group := nh / model.num_key_value_heads
  let head_div := (S.sqrt (dh : α))⁻¹
  let att_len := pos + seq_len
  let kv := layerKV S model seq_len pos l s
  let q_att3 := reshape3 seq_len (head_group * seq_len) (layerQ5 S model pos l s.x0)
  let x2 := attention S dh att_len head_div q_att3 kv.k kv.v
  let x2r := reshape3 (head_group * seq_len) seq_len x2
  let x1a : Ten2 α := fun i j => x2r (j / dh) i (j % dh)
  matmul2 d s.x0 1 x1a (fun i j => model.self_attn_o_proj l j i) 1

/-- One iteration of the layer loop of `Transformer::update` (lines 65-139),
in source order, composed from the stage definitions above.  Returns the
cache list as of exit (or as of the failure point) together with the next
state or the error.  Validity checks of the view operations are the `if`
guards: the reshape of `q` to `[seq, nh, dh]` (line 79), the cache write
slice (line 92), and the regrouping reshapes at lines 98, 115, 121 and 122;
the reshapes of `k` and `v` at lines 77-78 always pass because
`dkv = nkvh * dh` by definition.  The post-attention norm and the gate/up
projection (lines 129-138) are computed and discarded exactly as in the
source: nothing of the MLP reaches the returned state. -/
def layerStep (S : Scalars α) (model : Model α) (seq_len pos l : Nat)
    (s : PipeState α) : List (LayerCache α) × Except PipeError (PipeState α) :=
  let d := model.hidden_size
  let nh := model.num_attention_heads
  let nkvh := model.num_key_value_heads
  let dh := d / nh
  let head_group := nh / nkvh
  let di := model.intermediate_size
  let epsilon := model.rms_norm_eps
  let att_len := pos + seq_len
  if d = nh * dh then
    let kc0 := s.caches.getD l dfltCache
    if pos + seq_len ≤ kc0.max_seq_len then
      let caches1 := s.caches.set l (layerKV S model seq_len pos l s)
      if nh * (seq_len * dh) = nkvh * (head_group * seq_len * dh) then
        if nkvh * (head_group * seq_len * att_len) = nh * (seq_len * att_len) then
          if nkvh * (head_group * seq_len * dh) = nh * (seq_len * dh) then
            if d = nh * dh then
              let x0b := layerAttnX0 S model seq_len pos l s
              let x1b := rms_norm S d epsilon (model.post_attention_layernorm l) x0b
              let gate_up := matmul2 d (fun _ _ => 0) 0 x1b
                (fun i j => model.mlp_gate_up l j i) 1
              let _gate : Ten2 α := fun i j => gate_up i j
              let _up : Ten2 α := fun i j => gate_up i (di + j)
              (caches1, .ok ⟨caches1, x0b⟩)
            else (caches1, .error .SizeMismatch)
          else (caches1, .error .SizeMismatch)
        else (caches1, .error .SizeMismatch)
      else (caches1, .error .SizeMismatch)
    else (s.caches, .error .OutOfBounds)
  else (s.caches, .error .SizeMismatch)

/-- The layer loop: `n` remaining layers starting at index `l`.  An error
aborts the loop, reporting the cache list as of the failure point. -/
def runLayers (S : Scalars α) (model : Model α) (seq_len pos : Nat) :
    Nat → Nat → PipeState α → List (LayerCache α) × Except PipeError (PipeState α)
  | _, 0, s => (s.caches, .ok s)
  | l, n + 1, s =>
    match layerStep S model seq_len pos l s with
    | (c, .error e) => (c, .error e)
    | (_, .ok s1) => runLayers S model seq_len pos (l + 1) n s1

/-- The body of `Transformer::update` (lines 34-142) as a function of the
weight provider: gather the token embeddings into `x0`, run every layer, and
return the final cache list together with the function's return value —
which in the source is the literal `vec![]` (line 141). -/
def Model.update (S : Scalars α) (model : Model α) (tokens : List Nat)
    (cache : List (LayerCache α)) (pos : Nat) :
    List (LayerCache α) × Except PipeError (List α) :=
  let seq_len := tokens.length
  let x0 := gather model.embed_tokens tokens
  match runLayers S model seq_len pos 0 model.num_hidden_layers ⟨cache, x0⟩ with
  | (c, .ok _) => (c, .ok [])
  | (c, .error e) => (c, .error e)

/-- `Transformer`: owns the (possibly cast) weight provider. -/
structure Transformer (α : Type) where
  model : Model α

/-- Modelled from the spec: `model_parameters::Memory::cast` (the
`model_parameters` crate is not under `src/`): a one-time whole-model
conversion of every weight tensor to the target data type.  Over the exact
scalar field the BF16-to-F32 widening is value-preserving, so only the data
type tag changes. -/
def Memory.cast (m : Model α) (dt : DataType) : Model α :=
  { m with data_type := dt }

/-- `Transformer::new` (lines 20-27): a BF16 provider is cast once, at
construction, to F32; any other data type is stored unchanged. -/
def Transformer.new (m : Model α) : Transformer α :=
  ⟨match m.data_type with
    | .BF16 => Memory.cast m .F32
    | _ => m⟩

/-- `Transformer::update` dispatches to the pipeline on the stored model;
the pipeline body contains no cast. -/
def Transformer.update (S : Scalars α) (t : Transformer α) (tokens : List Nat)
    (cache : List (LayerCache α)) (pos : Nat) :
    List (LayerCache α) × Except PipeError (List α) :=
  Model.update S t.model tokens cache pos

/-- The claim's description of grouped-query attention, written per query
head: head `h` reads key/value head `h / head_group`; scores are
`head_div * q @ k^T` over the valid range `[0, att_len)`, softmaxed per row,
then contracted against the value rows of the same range. -/
def gqaSpec (S : Scalars α) (dh att_len hg : Nat) (head_div : α)
    (q kc vc : Ten3 α) : Ten3 α :=
  fun h i c =>
    sumR att_len (fun j =>
      softmaxRow S att_len
          (fun j2 => head_div * sumR dh (fun c2 => q h i c2 * kc (h / hg) j2 c2)) j
        * vc (h / hg) j c)

/-- The spec's gated-MLP stage (spec 4.4 step 3.i), stated from the claim's
words: project through the fused gate/up weight, split into halves, apply
`swiglu`, then the down projection accumulating into `x0` with `beta = 1`. -/
def specGatedMlp (S : Scalars α) (model : Model α) (l di d : Nat)
    (x1b x0 : Ten2 α) : Ten2 α :=
  let gate_up := matmul2 d (fun _ _ => 0) 0 x1b (fun i j => model.mlp_gate_up l j i) 1
  let gate : Ten2 α := fun i j => gate_up i j
  let up : Ten2 α := fun i j => gate_up i (di + j)
  matmul2 di x0 1 (swiglu S gate up) (fun i j => model.mlp_down_proj l j i) 1

end Pipeline

/-- The real-valued instantiation of the numeric primitives. -/
noncomputable def realScalars : Scalars ℝ :=
  ⟨Real.sqrt, Real.exp, Real.cos, Real.sin, fun a b => Real.rpow a b⟩

/-- A rational instantiation with trivial transcendental primitives, used to
exercise the control flow and shape checks of the pipeline on concrete
inputs (the guards never inspect these functions). -/
def ratScalars : Scalars ℚ :=
  ⟨fun _ => 1, fun _ => 1, fun _ => 1, fun _ => 0, fun _ _ => 1⟩

section Concrete

/-- A matrix literal: row-major list of rows, zero outside. -/
def matOf {α : Type} [Field α] (rows : List (List α)) : Ten2 α :=
  fun i j => (rows.getD i []).getD j 0

/-- A small single-layer model (hidden size 2, one head, capacity 2) with
zero query/key projections, identity value and output projections, and a
nonzero gate/up/down stack, used to exercise the pipeline concretely. -/
def qm : Model ℚ where
  hidden_size := 2
  num_attention_heads := 1
  num_key_value_heads := 1
  intermediate_size := 1
  num_hidden_layers := 1
  max_position_embeddings := 2
  rms_norm_eps := 0
  rope_theta := 1
  data_type := .F32
  embed_tokens := matOf [[2, 0]]
  input_layernorm := fun _ => matOf [[1, 1]] 0
  w_qkv := fun _ => matOf [[0,0],[0,0],[0,0],[0,0],[1,0],[0,1]]
  self_attn_o_proj := fun _ => matOf [[1,0],[0,1]]
  post_attention_layernorm := fun _ => matOf [[1, 1]] 0
  mlp_gate_up := fun _ => matOf [[1,0],[1,0]]
  mlp_down_proj := fun _ => matOf [[1],[0]]

/-- `qm` with a BF16 provider tag, for the construction-cast claim. -/
def qmBF : Model ℚ := { qm with data_type := .BF16 }

/-- A model whose head counts do not divide (`num_heads = 3`,
`num_kv_heads = 2`) but whose dimensions are otherwise consistent
(`hidden_size = 3`, so `head_dim = 1`). -/
def qm6 : Model ℚ where
  hidden_size := 3
  num_attention_heads := 3
  num_key_value_heads := 2
  intermediate_size := 1
  num_hidden_layers := 1
  max_position_embeddings := 2
  rms_norm_eps := 0
  rope_theta := 1
  data_type := .F32
  embed_tokens := matOf [[1, 1, 1]]
  input_layernorm := fun _ => matOf [[1, 1, 1]] 0
  w_qkv := fun _ => matOf []
  self_attn_o_proj := fun _ => matOf []
  post_attention_layernorm := fun _ => matOf [[1, 1, 1]] 0
  mlp_gate_up := fun _ => matOf []
  mlp_down_proj := fun _ => matOf []

/-- A two-layer real-valued model (hidden size 1, one head, capacity 5,
epsilon 9/4) with zero query/key projections and identity value/output
projections: attention scores are identically zero, so each softmax row is
uniform over the whole attended range `[0, pos+seq_len)`, and with
embeddings 2 and 9/8 every root `sqrt(x^2 + 9/4)` of the first norm layer
is rational, keeping all intermediate values in closed form. -/
noncomputable def M5 : Model ℝ where
  hidden_size := 1
  num_attention_heads := 1
  num_key_value_heads := 1
  intermediate_size := 1
  num_hidden_layers := 2
  max_position_embeddings := 5
  rms_norm_eps := 9 / 4
  rope_theta := 1
  data_type := .F32
  embed_tokens := matOf [[2], [9 / 8], [2], [2], [2]]
  input_layernorm := fun _ => matOf [[1]] 0
  w_qkv := fun _ => matOf [[0], [0], [1]]
  self_attn_o_proj := fun _ => matOf [[1]]
  post_attention_layernorm := fun _ => matOf [[1]] 0
  mlp_gate_up := fun _ => matOf [[0], [0]]
  mlp_down_proj := fun _ => matOf [[0]]

end Concrete

namespace WebApi

/-- The `hyper::StatusCode` constants the schema uses (external crate); the
numeric values are the standard HTTP codes returned by `as_u16`. -/
inductive StatusCode where
  | NOT_FOUND
  | NOT_ACCEPTABLE
  | CONFLICT
  | BAD_REQUEST
  | RANGE_NOT_SATISFIABLE
deriving DecidableEq

/-- `hyper::StatusCode::as_u16`. -/
def StatusCode.as_u16 : StatusCode → Nat
  | .NOT_FOUND => 404
  | .NOT_ACCEPTABLE => 406
  | .CONFLICT => 409
  | .BAD_REQUEST => 400
  | .RANGE_NOT_SATISFIABLE => 416

/-- `schemas::Error` (web-api/src/schemas.rs, lines 49-56). -/
inductive Error where
  | SessionBusy
  | SessionDuplicate
  | SessionNotFound
  | WrongJson (msg : String)
  | InvalidDialogPos (current_dialog_pos : Nat)

/-- `Error::status` (lines 66-75). -/
def Error.status : Error → StatusCode
  | .SessionNotFound => .NOT_FOUND
  | .SessionBusy => .NOT_ACCEPTABLE
  | .SessionDuplicate => .CONFLICT
  | .WrongJson _ => .BAD_REQUEST
  | .InvalidDialogPos _ => .RANGE_NOT_SATISFIABLE

/-- The serialized error body (lines 58-63): always `status`, `code` and
`message`; `InvalidDialogPos` flattens in the extra `current_dialog_pos`
field (lines 99-110), modelled as the optional fourth field. -/
structure ErrorBody where
  status : Nat
  code : Nat
  message : String
  current_dialog_pos : Option Nat
deriving DecidableEq

/-- `Error::body` (lines 77-112): a total function — serialization of the
plain record cannot fail, so no panic path exists. -/
def Error.body : Error → ErrorBody
  | .SessionNotFound => ⟨(Error.status .SessionNotFound).as_u16, 0, "Session not found", none⟩
  | .SessionBusy => ⟨(Error.status .SessionBusy).as_u16, 0, "Session is busy", none⟩
  | .SessionDuplicate =>
    ⟨(Error.status .SessionDuplicate).as_u16, 0, "Session ID already exists", none⟩
  | .WrongJson e => ⟨(Error.status (.WrongJson e)).as_u16, 0, e, none⟩
  | .InvalidDialogPos p =>
    ⟨(Error.status (.InvalidDialogPos p)).as_u16, 0, "Dialog position out of range", some p⟩

end WebApi

namespace Gpu

/-- A CUDA device as the construction reads it: the x-component of
`max_block_dims` and the compute capability (kept abstract as a totally
ordered number). -/
structure Device where
  max_block_dims : Nat × Nat × Nat
  compute_capability : Nat
deriving DecidableEq

/-- `Device::compute_capability`. -/
def Device.cc (d : Device) : Nat := d.compute_capability

/-- `mat_mul::Operator` configuration (only a data layout). -/
structure MatMulOp where
  data_layout : DataType
deriving DecidableEq

/-- `rms_norm::Config` (devices/nvidia-gpu/src/lib.rs, lines 44-50). -/
structure RmsNormOp where
  data_layout : DataType
  num_items_reduce : Nat
  num_threads_warp : Nat
  max_num_threads_block : Nat
  compute_capability : Nat
deriving DecidableEq

/-- `rope::Config` (lines 52-56). -/
structure RopeOp where
  data_layout : DataType
  max_num_threads_block : Nat
  compute_capability : Nat
deriving DecidableEq

/-- `reform::Config` (lines 58-62). -/
structure ReformOp where
  num_threads_warp : Nat
  max_num_threads_block : Nat
  compute_capability : Nat
deriving DecidableEq

/-- `fuesd_softmax::Config` (lines 64-69). -/
structure SoftmaxOp where
  data_layout : DataType
  max_seq_len : Nat
  max_num_threads_block : Nat
  compute_capability : Nat
deriving DecidableEq

/-- `swiglu::Config` (lines 71-75). -/
structure SwigluOp where
  data_layout : DataType
  max_num_threads_block : Nat
  compute_capability : Nat
deriving DecidableEq

/-- Modelled from the spec: `Operator::new` of the `operators` crate (not
under `src/`) fails when a configuration parameter is invalid, e.g. a
requested maximum size of zero; `none` models the constructor error that
the source unwraps into a panic. -/
def MatMulOp.new (dt : DataType) : Option MatMulOp := some ⟨dt⟩

/-- Modelled from the spec: invalid when the requested reduction size is
zero. -/
def RmsNormOp.new (c : RmsNormOp) : Option RmsNormOp :=
  if c.num_items_reduce = 0 then none else some c

/-- Modelled from the spec: no size parameter, always valid. -/
def RopeOp.new (c : RopeOp) : Option RopeOp := some c

/-- Modelled from the spec: no size parameter, always valid. -/
def ReformOp.new (c : ReformOp) : Option ReformOp := some c

/-- Modelled from the spec: invalid when the requested maximum sequence
length is zero. -/
def SoftmaxOp.new (c : SoftmaxOp) : Option SoftmaxOp :=
  if c.max_seq_len = 0 then none else some c

/-- Modelled from the spec: no size parameter, always valid. -/
def SwigluOp.new (c : SwigluOp) : Option SwigluOp := some c

/-- `NvidiaKernels` (lines 25-32): one configured operator per kernel. -/
structure NvidiaKernels where
  mat_mul : MatMulOp
  rms_norm : RmsNormOp
  rope : RopeOp
  reform : ReformOp
  softmax : SoftmaxOp
  swiglu : SwigluOp
deriving DecidableEq

/-- `NvidiaKernels::new` (lines 34-79): take the minimum
max-threads-per-block and the minimum compute capability across the device
list (`.min().unwrap()` — `none` models the panic on an empty list), then
construct every operator with warp size 32, unwrapping each constructor. -/
def NvidiaKernels.new (devices : List Device) (rms_norm_max_size softmax_max_size : Nat) :
    Option NvidiaKernels :=
  match (devices.map (fun d => d.max_block_dims.1)).min?,
      (devices.map Device.cc).min? with
  | some max_num_threads_block, some compute_capability =>
    match MatMulOp.new .F16,
        RmsNormOp.new ⟨.F16, rms_norm_max_size, 32, max_num_threads_block, compute_capability⟩,
        RopeOp.new ⟨.F16, max_num_threads_block, compute_capability⟩,
        ReformOp.new ⟨32, max_num_threads_block, compute_capability⟩,
        SoftmaxOp.new ⟨.F16, softmax_max_size, max_num_threads_block, compute_capability⟩,
        SwigluOp.new ⟨.F16, max_num_threads_block, compute_capability⟩ with
    | some m, some r, some ro, some re, some so, some sw => some ⟨m, r, ro, re, so, sw⟩
    | _, _, _, _, _, _ => none
  | _, _ => none

/-- The panic observed when unwrapping an empty `DropOption`. -/
inductive UnwrapPanic where
  | panicked
deriving DecidableEq

/-- The context-binding capability of a `ContextSpore` (`cuda` crate,
external): sprouting a stored value under a context guard yields the
context-scoped resource. -/
structure ContextSpore (T Ctx Res : Type) where
  sproutRes : T → Ctx → Res

/-- `DropOption<T>` (lines 190-218): a deferred resource handle. -/
structure DropOption (T : Type) where
  val : Option T

/-- The `From<T>` impl (lines 192-197). -/
def DropOption.fromVal {T : Type} (v : T) : DropOption T := ⟨some v⟩

/-- `AsRef` (lines 199-204): `self.0.as_ref().unwrap()`; `.error` models
the unwrap panic on an emptied handle. -/
def DropOption.as_ref {T : Type} (d : DropOption T) : Except UnwrapPanic T :=
  match d.val with
  | some v => .ok v
  | none => .error .panicked

/-- `AsMut` (lines 206-211): same unwrap on the mutable path. -/
def DropOption.as_mut {T : Type} (d : DropOption T) : Except UnwrapPanic T :=
  match d.val with
  | some v => .ok v
  | none => .error .panicked

/-- `DropOption::sprout` (lines 213-218): `self.0.take().unwrap().sprout(ctx)`
— the handle is emptied unconditionally by `take`, and the taken value is
unwrapped (panicking if the handle was already emptied) and bound to the
context. -/
def DropOption.sprout {T Ctx Res : Type} (cs : ContextSpore T Ctx Res)
    (d : DropOption T) (ctx : Ctx) : DropOption T × Except UnwrapPanic Res :=
  match d.val with
  | some v => (⟨none⟩, .ok (cs.sproutRes v ctx))
  | none => (⟨none⟩, .error .panicked)

end Gpu

/-- Helper: `List.getD` after `List.set` — other indices (or out-of-range
sets) are unchanged. -/
theorem getD_set {β : Type} (L : List β) (i j : Nat) (a d : β) (hij : i ≠ j) :
    (L.set i a).getD j d = L.getD j d := by
  simp [List.getD, List.getElem?_set_ne hij]

/-- Helper: a slice write leaves positions outside `[pos, pos+len)`
unchanged. -/
theorem writeSlice_outside {α : Type} [Field α] [LinearOrder α]
    (pos len : Nat) (src old : Ten3 α) (h p c : Nat)
    (hp : p < pos ∨ pos + len ≤ p) :
    writeSlice pos len src old h p c = old h p c := by
  unfold writeSlice
  rw [if_neg (by omega)]

/-- Claim C1: the claim says `update(tokens, caches, pos)` returns the final
residual stream `x0`.  In the source the function body ends in the literal
`vec![]` (line 141), so every successful call returns the empty vector, never
the residual stream (which has `seq_len * hidden_size` entries) — the claim
describes the intent, the code a slip. -/
theorem update_returns_empty {α : Type} [Field α] [LinearOrder α] (S : Scalars α)
    (t : Transformer α) (tokens : List Nat) (cache : List (LayerCache α)) (pos : Nat)
    (l : List α) (h : (Transformer.update S t tokens cache pos).snd = .ok l) :
    l = [] := by
  simp only [Transformer.update, Model.update] at h
  rcases hr : runLayers S t.model tokens.length pos 0 t.model.num_hidden_layers
      ⟨cache, gather t.model.embed_tokens tokens⟩ with ⟨c, r⟩
  rw [hr] at h
  cases r <;> simp_all

theorem update_returns_empty_witness :
    (Transformer.update ratScalars ⟨qm⟩ [0] (new_cache qm) 0).snd = .ok []
    ∧ ([] : List ℚ) = [] :=
  ⟨rfl, update_returns_empty ratScalars ⟨qm⟩ [0] (new_cache qm) 0 [] rfl⟩

/-- Claim C3 counterexample: a call with `pos + tokens.len() > max_seq_len`
does not fail with `SequenceTooLong` — no such check or error exists in
`update`; the concrete call fails with the cache slice's out-of-bounds
failure (a panic in the Rust code) instead. -/
theorem seq_overflow_counterexample :
    Transformer.update ratScalars ⟨qm⟩ [0] (new_cache qm) 5
      = (new_cache qm, .error .OutOfBounds)
    ∧ PipeError.OutOfBounds ≠ PipeError.SequenceTooLong :=
  ⟨rfl, by decide⟩

/-- Claim C3 amended: a call with `pos + tokens.len() > max_seq_len` (with at
least one layer and a head-divisible hidden size) fails when slicing the
cache write range — an `OutOfBounds` view failure, not a `SequenceTooLong`
error — and no cache contents are mutated: the caches are returned exactly
as given. -/
theorem seq_overflow_fails_out_of_bounds {α : Type} [Field α] [LinearOrder α]
    (S : Scalars α) (t : Transformer α) (tokens : List Nat)
    (cache : List (LayerCache α)) (pos : Nat)
    (hdvd : t.model.num_attention_heads ∣ t.model.hidden_size)
    (hL : 0 < t.model.num_hidden_layers)
    (hover : (cache.getD 0 dfltCache).max_seq_len < pos + tokens.length) :
    Transformer.update S t tokens cache pos = (cache, .error .OutOfBounds) := by
  obtain ⟨n, hn⟩ : ∃ n, t.model.num_hidden_layers = n + 1 :=
    ⟨t.model.num_hidden_layers - 1, by omega⟩
  have hq : t.model.hidden_size
      = t.model.num_attention_heads * (t.model.hidden_size / t.model.num_attention_heads) :=
    (Nat.mul_div_cancel' hdvd).symm
  have hnot : ¬ (pos + tokens.length ≤ (cache.getD 0 dfltCache).max_seq_len) := by omega
  simp only [Transformer.update, Model.update, hn, runLayers, layerStep]
  rw [if_pos hq, if_neg hnot]

theorem seq_overflow_witness :
    Transformer.update ratScalars ⟨qm⟩ [0] (new_cache qm) 5
      = (new_cache qm, .error .OutOfBounds) :=
  seq_overflow_fails_out_of_bounds ratScalars ⟨qm⟩ [0] (new_cache qm) 5
    (by decide) (by decide) (by decide)

/-- Claim C6 counterexample: with `num_heads = 3` not a multiple of
`num_kv_heads = 2`, the forward pass does not fail with `InvalidHeadConfig`
(no such check exists); it fails with the `SizeMismatch` of the query-buffer
regrouping reshape at line 98. -/
theorem head_config_counterexample :
    (Transformer.update ratScalars ⟨qm6⟩ [0] (new_cache qm6) 0).snd = .error .SizeMismatch
    ∧ PipeError.SizeMismatch ≠ PipeError.InvalidHeadConfig :=
  ⟨rfl, by decide⟩

/-- Claim C6 amended: whenever `num_heads` is not an exact multiple of
`num_kv_heads` (and the run would otherwise proceed: divisible hidden size,
nonzero head dim, tokens present, capacity sufficient), the forward pass
fails fatally — but with the reshape `SizeMismatch` from regrouping the
query buffer by the truncated `head_group = nh / nkvh`, not with a dedicated
`InvalidHeadConfig` error, and only after the layer's cache slice was
already written. -/
theorem head_mismatch_size_error {α : Type} [Field α] [LinearOrder α]
    (S : Scalars α) (t : Transformer α) (tokens : List Nat)
    (cache : List (LayerCache α)) (pos : Nat)
    (hdvd : t.model.num_attention_heads ∣ t.model.hidden_size)
    (hnd : ¬ t.model.num_key_value_heads ∣ t.model.num_attention_heads)
    (hL : 0 < t.model.num_hidden_layers)
    (htok : 0 < tokens.length)
    (hdh : 0 < t.model.hidden_size / t.model.num_attention_heads)
    (hcap : pos + tokens.length ≤ (cache.getD 0 dfltCache).max_seq_len) :
    (Transformer.update S t tokens cache pos).snd = .error .SizeMismatch := by
  obtain ⟨n, hn⟩ : ∃ n, t.model.num_hidden_layers = n + 1 :=
    ⟨t.model.num_hidden_layers - 1, by omega⟩
  have hq : t.model.hidden_size
      = t.model.num_attention_heads * (t.model.hidden_size / t.model.num_attention_heads) :=
    (Nat.mul_div_cancel' hdvd).symm
  have hne : ¬ (t.model.num_attention_heads
        * (tokens.length * (t.model.hidden_size / t.model.num_attention_heads))
      = t.model.num_key_value_heads
        * (t.model.num_attention_heads / t.model.num_key_value_heads * tokens.length
          * (t.model.hidden_size / t.model.num_attention_heads))) := by
    intro heq
    apply hnd
    have h2 : t.model.num_attention_heads
        * (tokens.length * (t.model.hidden_size / t.model.num_attention_heads))
      = (t.model.num_key_value_heads
          * (t.model.num_attention_heads / t.model.num_key_value_heads))
        * (tokens.length * (t.model.hidden_size / t.model.num_attention_heads)) := by
      rw [heq]; ring
    have hpos : 0 < tokens.length * (t.model.hidden_size / t.model.num_attention_heads) :=
      Nat.mul_pos htok hdh
    exact ⟨t.model.num_attention_heads / t.model.num_key_value_heads,
      Nat.eq_of_mul_eq_mul_right hpos h2⟩
  simp only [Transformer.update, Model.update, hn, runLayers, layerStep]
  rw [if_pos hq, if_pos hcap, if_neg hne]

theorem head_mismatch_size_error_witness :
    (Transformer.update ratScalars ⟨qm6⟩ [0] (new_cache qm6) 0).snd = .error .SizeMismatch :=
  head_mismatch_size_error ratScalars ⟨qm6⟩ [0] (new_cache qm6) 0
    (by decide) (by decide) (by decide) (by decide) (by decide) (by decide)

/-- Claim C2: the claim says every layer applies the gated MLP — gate/up
`mat_mul`, split, `swiglu`, and a down-projection `mat_mul` with `beta = 1`
accumulating into `x0`.  The source computes the gate/up projection and then
discards both halves (`_gate`, `_up`, lines 134-136): no `swiglu` and no
down-projection run, and the layer's residual stream leaves the MLP stage
unchanged.  On the concrete model `qm` the layer yields `x0[0,0] = 4`,
whereas the spec's gated-MLP stage (`specGatedMlp`, built from the claim's
words) applied to the same intermediate values yields `12 ≠ 4`. -/
theorem mlp_tail_discards_gate_up :
    ((layerStep ratScalars qm 1 0 0 ⟨new_cache qm, gather qm.embed_tokens [0]⟩).snd.map
        (fun s => s.x0 0 0) = Except.ok 4)
    ∧ specGatedMlp ratScalars qm 0 1 2 (matOf [[4, 0]]) (matOf [[4, 0]]) 0 0 = 12
    ∧ (4 : ℚ) ≠ 12 := by
  refine ⟨?_, ?_, by norm_num⟩
  · simp [layerStep, layerAttnX0, layerKV, layerQ5, layerK5, layerV5, layerQkv, layerX1,
      rms_norm, matmul2, matmul3, attention, softmax, softmaxRow, maxR, sumR, gather,
      rotary_embedding, writeSlice, reshape3, qm, matOf, ratScalars, new_cache, Except.map]
    norm_num
  · simp [specGatedMlp, matmul2, swiglu, sumR, qm, matOf, ratScalars]
    norm_num

/-- Claim C7: `Transformer::new` casts a BF16 weight provider once, at
construction time, to F32 (`Memory::cast` of the whole model), stores any
other provider unchanged, and `update` consumes the stored model as is —
the pipeline body contains no cast. -/
theorem construction_casts_bf16_once {α : Type} [Field α] [LinearOrder α] (m : Model α) :
    (m.data_type = .BF16 → Transformer.new m = ⟨Memory.cast m .F32⟩)
    ∧ (m.data_type ≠ .BF16 → Transformer.new m = ⟨m⟩)
    ∧ ∀ (S : Scalars α) (tokens : List Nat) (cache : List (LayerCache α)) (pos : Nat),
        Transformer.update S (Transformer.new m) tokens cache pos
          = Model.update S (Transformer.new m).model tokens cache pos := by
  refine ⟨fun h => ?_, fun h => ?_, fun S tokens cache pos => rfl⟩
  · simp [Transformer.new, h]
  · unfold Transformer.new
    rcases hd : m.data_type <;> simp_all

theorem construction_casts_bf16_once_witness :
    qmBF.data_type = .BF16 ∧ Transformer.new qmBF = ⟨Memory.cast qmBF .F32⟩ :=
  ⟨rfl, (construction_casts_bf16_once qmBF).1 rfl⟩

/-- Claim C9: each serving-layer error maps to a distinct HTTP status
(`SessionNotFound` 404, `SessionBusy` 406, `SessionDuplicate` 409,
`InvalidDialogPos` 416), the structured body always carries the status and a
machine-readable `code` field, and `InvalidDialogPos` additionally reports
the current dialog position; `Error.status` and `Error.body` are total
functions, so the mapping is total and deterministic and cannot crash. -/
theorem serving_error_status_mapping :
    ((WebApi.Error.status .SessionNotFound).as_u16 = 404
      ∧ (WebApi.Error.status .SessionBusy).as_u16 = 406
      ∧ (WebApi.Error.status .SessionDuplicate).as_u16 = 409
      ∧ ∀ p : Nat, (WebApi.Error.status (.InvalidDialogPos p)).as_u16 = 416)
    ∧ (∀ e : WebApi.Error, (WebApi.Error.body e).status = (WebApi.Error.status e).as_u16
        ∧ (WebApi.Error.body e).code = 0)
    ∧ (∀ p : Nat, (WebApi.Error.body (.InvalidDialogPos p)).current_dialog_pos = some p) := by
  refine ⟨⟨rfl, rfl, rfl, fun p => rfl⟩, fun e => ?_, fun p => rfl⟩
  cases e <;> exact ⟨rfl, rfl⟩

/-- Claim C10: a `DropOption` handle can be sprouted at most once: sprouting
a filled handle takes the value (leaving `None`) and binds it to the
context, and any further `sprout`, `as_ref` or `as_mut` on the emptied
handle hits the `unwrap` panic instead of yielding a resource. -/
theorem drop_option_single_sprout {T Ctx Res : Type} (cs : Gpu.ContextSpore T Ctx Res)
    (v : T) (ctx ctx2 : Ctx) :
    Gpu.DropOption.sprout cs (Gpu.DropOption.fromVal v) ctx
        = (⟨none⟩, .ok (cs.sproutRes v ctx))
    ∧ (Gpu.DropOption.sprout cs
        (Gpu.DropOption.sprout cs (Gpu.DropOption.fromVal v) ctx).fst ctx2).snd
        = .error .panicked
    ∧ Gpu.DropOption.as_ref (Gpu.DropOption.sprout cs (Gpu.DropOption.fromVal v) ctx).fst
        = .error .panicked
    ∧ Gpu.DropOption.as_mut (Gpu.DropOption.sprout cs (Gpu.DropOption.fromVal v) ctx).fst
        = .error .panicked :=
  ⟨rfl, rfl, rfl, rfl⟩

/-- Claim C8: `NvidiaKernels::new` panics (modelled `none`) on an empty
device list and on a zero maximum size for the rms-norm or softmax operator;
on success every operator is configured with the minimum
max-threads-per-block and minimum compute capability across the devices, and
the fixed warp size 32. -/
theorem nvidia_kernels_min_capability :
    (∀ r s : Nat, Gpu.NvidiaKernels.new [] r s = none)
    ∧ (∀ (ds : List Gpu.Device) (s : Nat), Gpu.NvidiaKernels.new ds 0 s = none)
    ∧ (∀ (ds : List Gpu.Device) (r : Nat), Gpu.NvidiaKernels.new ds r 0 = none)
    ∧ ∀ (ds : List Gpu.Device) (r s mt cc : Nat), 0 < r → 0 < s →
        (ds.map (fun d => d.max_block_dims.1)).min? = some mt →
        (ds.map Gpu.Device.cc).min? = some cc →
        Gpu.NvidiaKernels.new ds r s
          = some ⟨⟨.F16⟩, ⟨.F16, r, 32, mt, cc⟩, ⟨.F16, mt, cc⟩, ⟨32, mt, cc⟩,
              ⟨.F16, s, mt, cc⟩, ⟨.F16, mt, cc⟩⟩ := by
  refine ⟨fun r s => rfl, fun ds s => ?_, fun ds r => ?_, fun ds r s mt cc hr hs hmt hcc => ?_⟩
  · unfold Gpu.NvidiaKernels.new
    rcases h1 : (ds.map (fun d => d.max_block_dims.1)).min? with _ | mt <;>
      rcases h2 : (ds.map Gpu.Device.cc).min? with _ | cc <;>
        simp_all [Gpu.MatMulOp.new, Gpu.RmsNormOp.new, Gpu.RopeOp.new, Gpu.ReformOp.new,
          Gpu.SoftmaxOp.new]
  · unfold Gpu.NvidiaKernels.new
    rcases h1 : (ds.map (fun d => d.max_block_dims.1)).min? with _ | mt <;>
      rcases h2 : (ds.map Gpu.Device.cc).min? with _ | cc <;>
        rcases Nat.eq_zero_or_pos r with hr | hr <;>
          simp_all [Gpu.MatMulOp.new, Gpu.RmsNormOp.new, Gpu.RopeOp.new, Gpu.ReformOp.new,
            Gpu.SoftmaxOp.new, Nat.pos_iff_ne_zero]
  · simp [Gpu.NvidiaKernels.new, hmt, hcc, Gpu.MatMulOp.new, Gpu.RmsNormOp.new,
      Gpu.RopeOp.new, Gpu.ReformOp.new, Gpu.SoftmaxOp.new, Gpu.SwigluOp.new,
      Nat.pos_iff_ne_zero.mp hr, Nat.pos_iff_ne_zero.mp hs]

theorem nvidia_kernels_min_capability_witness :
    (0 < 2048 ∧ 0 < 1024
      ∧ ([Gpu.Device.mk (256, 1024, 64) 70, Gpu.Device.mk (128, 1024, 64) 61].map
          (fun d => d.max_block_dims.1)).min? = some 128
      ∧ ([Gpu.Device.mk (256, 1024, 64) 70, Gpu.Device.mk (128, 1024, 64) 61].map
          Gpu.Device.cc).min? = some 61)
    ∧ Gpu.NvidiaKernels.new [Gpu.Device.mk (256, 1024, 64) 70, Gpu.Device.mk (128, 1024, 64) 61]
        2048 1024
      = some ⟨⟨.F16⟩, ⟨.F16, 2048, 32, 128, 61⟩, ⟨.F16, 128, 61⟩, ⟨32, 128, 61⟩,
          ⟨.F16, 1024, 128, 61⟩, ⟨.F16, 128, 61⟩⟩ :=
  ⟨⟨by decide, by decide, by decide, by decide⟩,
    nvidia_kernels_min_capability.2.2.2
      [Gpu.Device.mk (256, 1024, 64) 70, Gpu.Device.mk (128, 1024, 64) 61] 2048 1024 128 61
      (by decide) (by decide) (by decide) (by decide)⟩

/-- Helper: the row of a batched matmul as a function of the last index,
for rewriting under partially applied occurrences. -/
theorem matmul3_row {α : Type} [Field α] [LinearOrder α] (k : Nat) (c : Ten3 α)
    (beta : α) (a b : Ten3 α) (alpha : α) (h i : Nat) :
    matmul3 k c beta a b alpha h i
      = fun j => alpha * sumR k (fun t => a h i t * b h t j) + beta * c h i j := rfl

/-- Claim C4: the attention block of the pipeline (scores with
`alpha = 1/sqrt(head_dim)` against the cache range `[0, pos+seq_len)`, row
softmax, weighted sum over the value range), computed by the source in the
regrouped `[nkvh, head_group * seq_len, *]` layout, agrees with the per-query-
head statement of grouped-query attention: query head `h` of token `i` reads
key/value head `h / head_group`. -/
theorem gqa_attention_matches_spec {α : Type} [Field α] [LinearOrder α] (S : Scalars α)
    (dh att_len hg seq : Nat) (head_div : α) (qAtt kc vc : Ten3 α)
    (h i c : Nat) (hhg : 0 < hg) (hi : i < seq) :
    reshape3 (hg * seq) seq
        (attention S dh att_len head_div (reshape3 seq (hg * seq) qAtt) kc vc) h i c
      = gqaSpec S dh att_len hg head_div qAtt kc vc h i c := by
  have hseq : 0 < seq := Nat.lt_of_le_of_lt (Nat.zero_le i) hi
  have hglt : h % hg < hg := Nat.mod_lt h hhg
  have hrlt : h % hg * seq + i < hg * seq := by
    calc h % hg * seq + i < h % hg * seq + seq := by omega
    _ = (h % hg + 1) * seq := by ring
    _ ≤ hg * seq := Nat.mul_le_mul_right seq (Nat.succ_le_of_lt hglt)
  have h1 : h * seq + i = (hg * seq) * (h / hg) + (h % hg * seq + i) := by
    conv_lhs => rw [← Nat.div_add_mod h hg]
    ring
  have hdiv : (h * seq + i) / (hg * seq) = h / hg := by
    rw [h1, Nat.mul_add_div (Nat.mul_pos hhg hseq), Nat.div_eq_of_lt hrlt, Nat.add_zero]
  have hmod : (h * seq + i) % (hg * seq) = h % hg * seq + i := by
    rw [h1, Nat.mul_add_mod, Nat.mod_eq_of_lt hrlt]
  have h2 : h / hg * (hg * seq) + (h % hg * seq + i) = seq * (hg * (h / hg) + h % hg) + i := by
    ring
  have hq1 : (h / hg * (hg * seq) + (h % hg * seq + i)) / seq = h := by
    rw [h2, Nat.mul_add_div hseq, Nat.div_eq_of_lt hi, Nat.add_zero, Nat.div_add_mod]
  have hq2 : (h / hg * (hg * seq) + (h % hg * seq + i)) % seq = i := by
    rw [h2, Nat.mul_add_mod, Nat.mod_eq_of_lt hi]
  simp only [reshape3, attention, matmul3, matmul3_row, softmax, softmaxRow, gqaSpec, hdiv,
    hmod, hq1, hq2]
  simp

theorem gqa_attention_matches_spec_witness :
    (0 < 2 ∧ 0 < 1)
    ∧ reshape3 (2 * 1) 1
        (attention ratScalars 1 1 1
          (reshape3 1 (2 * 1) (fun _ _ _ => (1 : ℚ))) (fun _ _ _ => 1) (fun _ _ _ => 1)) 1 0 0
      = gqaSpec ratScalars 1 1 2 1 (fun _ _ _ => (1 : ℚ)) (fun _ _ _ => 1) (fun _ _ _ => 1) 1 0 0 :=
  ⟨⟨by decide, by decide⟩,
    gqa_attention_matches_spec ratScalars 1 1 2 1 1 (fun _ _ _ => (1 : ℚ))
      (fun _ _ _ => 1) (fun _ _ _ => 1) 1 0 0 (by decide) (by decide)⟩

/-- Helper: `List.getD` after an in-range `List.set` at the same index. -/
theorem getD_set_lt {β : Type} (L : List β) (i : Nat) (a d : β) (h : i < L.length) :
    (L.set i a).getD i d = a := by
  induction L generalizing i with
  | nil => simp at h
  | cons x xs ih =>
    cases i with
    | zero => rfl
    | succ n => simpa using ih n (by simpa using h)

/-- Helper: a successful layer step — when every view guard passes, the step
writes the layer's key/value projections into the cache slice and
accumulates the attention output into the residual stream. -/
theorem layerStep_ok {α : Type} [Field α] [LinearOrder α] (S : Scalars α) (model : Model α)
    (seq_len pos l : Nat) (s : PipeState α)
    (hq : model.hidden_size
      = model.num_attention_heads * (model.hidden_size / model.num_attention_heads))
    (hcap : pos + seq_len ≤ (s.caches.getD l dfltCache).max_seq_len)
    (h98 : model.num_attention_heads
        * (seq_len * (model.hidden_size / model.num_attention_heads))
      = model.num_key_value_heads
        * (model.num_attention_heads / model.num_key_value_heads * seq_len
          * (model.hidden_size / model.num_attention_heads)))
    (h115 : model.num_key_value_heads
        * (model.num_attention_heads / model.num_key_value_heads * seq_len * (pos + seq_len))
      = model.num_attention_heads * (seq_len * (pos + seq_len)))
    (h121 : model.num_key_value_heads
        * (model.num_attention_heads / model.num_key_value_heads * seq_len
          * (model.hidden_size / model.num_attention_heads))
      = model.num_attention_heads
        * (seq_len * (model.hidden_size / model.num_attention_heads))) :
    layerStep S model seq_len pos l s
      = (s.caches.set l (layerKV S model seq_len pos l s),
          .ok ⟨s.caches.set l (layerKV S model seq_len pos l s),
            layerAttnX0 S model seq_len pos l s⟩) := by
  simp only [layerStep]
  rw [if_pos hq, if_pos hcap, if_pos h98, if_pos h115, if_pos h121, if_pos hq]

/-- Helper: the two-layer unfolding of the layer loop. -/
theorem runLayers_two {α : Type} [Field α] [LinearOrder α] (S : Scalars α) (model : Model α)
    (seq_len pos : Nat) (s : PipeState α) :
    runLayers S model seq_len pos 0 2 s
      = match layerStep S model seq_len pos 0 s with
        | (c, .error e) => (c, .error e)
        | (_, .ok s1) =>
          match layerStep S model seq_len pos 1 s1 with
          | (c, .error e) => (c, .error e)
          | (_, .ok s2) => (s2.caches, .ok s2) := rfl

/-- Helper: the result of a forward call on the two-layer model `M5` when
both layers' cache capacities suffice: each layer's cache entry is replaced
by its written key/value pair, and the returned value is the empty vector. -/
theorem update_M5_fst (tokens : List Nat) (cache : List (LayerCache ℝ)) (pos : Nat)
    (hcap0 : pos + tokens.length ≤ (cache.getD 0 dfltCache).max_seq_len)
    (hcap1 : pos + tokens.length ≤ (cache.getD 1 dfltCache).max_seq_len) :
    Transformer.update realScalars ⟨M5⟩ tokens cache pos
      = ((cache.set 0
            (layerKV realScalars M5 tokens.length pos 0
              ⟨cache, gather M5.embed_tokens tokens⟩)).set 1
            (layerKV realScalars M5 tokens.length pos 1
              ⟨cache.set 0 (layerKV realScalars M5 tokens.length pos 0
                  ⟨cache, gather M5.embed_tokens tokens⟩),
                layerAttnX0 realScalars M5 tokens.length pos 0
                  ⟨cache, gather M5.embed_tokens tokens⟩⟩),
          .ok []) := by
  have hq : M5.hidden_size
      = M5.num_attention_heads * (M5.hidden_size / M5.num_attention_heads) := rfl
  have e0 := layerStep_ok realScalars M5 tokens.length pos 0
    ⟨cache, gather M5.embed_tokens tokens⟩ hq hcap0
    (by norm_num [M5]) (by norm_num [M5]) (by norm_num [M5])
  have hcap1a : pos + tokens.length
      ≤ (((⟨cache.set 0 (layerKV realScalars M5 tokens.length pos 0
            ⟨cache, gather M5.embed_tokens tokens⟩),
          layerAttnX0 realScalars M5 tokens.length pos 0
            ⟨cache, gather M5.embed_tokens tokens⟩⟩ : PipeState ℝ).caches.getD 1
          dfltCache)).max_seq_len := by
    have hset : ((cache.set 0 (layerKV realScalars M5 tokens.length pos 0
          ⟨cache, gather M5.embed_tokens tokens⟩)).getD 1 dfltCache)
        = cache.getD 1 dfltCache := getD_set cache 0 1 _ dfltCache (by omega)
    simpa [hset] using hcap1
  have e1 := layerStep_ok realScalars M5 tokens.length pos 1
    ⟨cache.set 0 (layerKV realScalars M5 tokens.length pos 0
        ⟨cache, gather M5.embed_tokens tokens⟩),
      layerAttnX0 realScalars M5 tokens.length pos 0
        ⟨cache, gather M5.embed_tokens tokens⟩⟩ hq hcap1a
    (by norm_num [M5]) (by norm_num [M5]) (by norm_num [M5])
  simp only [Transformer.update, Model.update]
  rw [show M5.num_hidden_layers = 2 from rfl, runLayers_two, e0]
  simp only [e1]

/-- Helper: rational square roots used by the `M5` evaluation. -/
theorem sqrt_of_sq {a b : ℝ} (hb : 0 ≤ b) (h : b ^ 2 = a) : Real.sqrt a = b := by
  rw [← h, Real.sqrt_sq hb]

/-- Helper: two ratios against square roots differ when the squared
cross-products differ. -/
theorem div_sqrt_ne {a b c d : ℝ} (hb : 0 < b) (hd : 0 < d)
    (hne : a ^ 2 * d ≠ c ^ 2 * b) : a / Real.sqrt b ≠ c / Real.sqrt d := by
  intro heq
  apply hne
  have hsb : (0:ℝ) < Real.sqrt b := Real.sqrt_pos.mpr hb
  have hsd : (0:ℝ) < Real.sqrt d := Real.sqrt_pos.mpr hd
  have h3 : a * Real.sqrt d = c * Real.sqrt b :=
    (div_eq_div_iff (ne_of_gt hsb) (ne_of_gt hsd)).mp heq
  calc a ^ 2 * d = (a * Real.sqrt d) ^ 2 := by rw [mul_pow, Real.sq_sqrt hd.le]
  _ = (c * Real.sqrt b) ^ 2 := by rw [h3]
  _ = c ^ 2 * b := by rw [mul_pow, Real.sq_sqrt hb.le]

theorem sqrt_four : Real.sqrt 4 = 2 := sqrt_of_sq (by norm_num) (by norm_num)

theorem sqrt_twentyfive : Real.sqrt 25 = 5 := sqrt_of_sq (by norm_num) (by norm_num)

theorem sqrt_sixtyfour : Real.sqrt 64 = 8 := sqrt_of_sq (by norm_num) (by norm_num)

theorem sqrt_twotwentyfive : Real.sqrt 225 = 15 := sqrt_of_sq (by norm_num) (by norm_num)

theorem sqrt_ninehundred : Real.sqrt 900 = 30 := sqrt_of_sq (by norm_num) (by norm_num)

theorem sqrt_twentyfivehundred : Real.sqrt 2500 = 50 := sqrt_of_sq (by norm_num) (by norm_num)

/-- Helper: the hyperparameters and weights of `M5`, as rewrite rules that
avoid inlining the structure literal. -/
theorem M5_proj :
    M5.hidden_size = 1 ∧ M5.num_attention_heads = 1 ∧ M5.num_key_value_heads = 1
    ∧ M5.intermediate_size = 1 ∧ M5.num_hidden_layers = 2 ∧ M5.max_position_embeddings = 5
    ∧ M5.rms_norm_eps = 9 / 4 ∧ M5.rope_theta = 1
    ∧ M5.embed_tokens = matOf [[2], [9 / 8], [2], [2], [2]]
    ∧ M5.input_layernorm = (fun _ => matOf [[1]] 0)
    ∧ M5.w_qkv = (fun _ => matOf [[0], [0], [1]])
    ∧ M5.self_attn_o_proj = (fun _ => matOf [[1]])
    ∧ M5.post_attention_layernorm = (fun _ => matOf [[1]] 0) :=
  ⟨rfl, rfl, rfl, rfl, rfl, rfl, rfl, rfl, rfl, rfl, rfl, rfl, rfl⟩

/-- Helper: the field projections of the real scalar instantiation. -/
theorem realScalars_proj :
    realScalars.sqrt = Real.sqrt ∧ realScalars.expf = Real.exp ∧ realScalars.cosf = Real.cos
    ∧ realScalars.sinf = Real.sin ∧ realScalars.powf = (fun a b => Real.rpow a b) :=
  ⟨rfl, rfl, rfl, rfl, rfl⟩

/-- Helper: the running maximum of an all-zero row is zero. -/
theorem maxR_const_zero {α : Type} [Field α] [LinearOrder α] (n : Nat) :
    maxR n (fun _ => (0 : α)) = 0 := by
  induction n with
  | zero => rfl
  | succ n ih => simp [maxR, ih]

/-- Helper: summing a constant. -/
theorem sumR_const {α : Type} [Field α] [LinearOrder α] (n : Nat) (a : α) :
    sumR n (fun _ => a) = n * a := by
  induction n with
  | zero => simp [sumR]
  | succ n ih =>
    simp only [sumR, ih, Nat.cast_succ]
    ring

/-- Helper: a scalar factors out of the sum. -/
theorem sumR_mul_left {α : Type} [Field α] [LinearOrder α] (n : Nat) (a : α) (f : Nat → α) :
    sumR n (fun i => a * f i) = a * sumR n f := by
  induction n with
  | zero => simp [sumR]
  | succ n ih =>
    simp only [sumR, ih]
    ring

/-- Helper: the softmax of an all-zero row is the uniform distribution. -/
theorem softmaxRow_zero {α : Type} [Field α] [LinearOrder α] (S : Scalars α) (n : Nat)
    (hexp : S.expf 0 = 1) (j : Nat) : softmaxRow S n (fun _ => 0) j = 1 / n := by
  simp [softmaxRow, maxR_const_zero, hexp, sumR_const]

/-- Helper: with a zero query row and head dimension one, the attention
output of row `(0, 0)` is the uniform average of the attended value rows. -/
theorem attention_uniform {α : Type} [Field α] [LinearOrder α] (S : Scalars α) (n : Nat)
    (hd : α) (q kc vc : Ten3 α) (hq : q 0 0 0 = 0) (hexp : S.expf 0 = 1) :
    attention S 1 n hd q kc vc 0 0 0 = sumR n (fun j => vc 0 j 0) / (n : α) := by
  simp only [attention, matmul3, matmul3_row, softmax]
  simp only [sumR, hq, zero_mul, mul_zero, add_zero, zero_add]
  simp only [softmaxRow_zero S n hexp]
  rw [sumR_mul_left, one_div, inv_mul_eq_div, one_mul]

/-- Helper: the query projection of `M5` is zero wherever the pipeline reads
it, for any residual stream. -/
theorem c5_q_zero (x0 : Ten2 ℝ) (pos i : Nat) :
    layerQ5 realScalars M5 pos 0 x0 0 i 0 = 0 := by
  norm_num [layerQ5, rotary_embedding, layerQkv, matmul2, sumR, M5_proj, realScalars_proj,
    matOf, List.getD]

/-- Helper: the uniform attention average over the 5-token call's value
cache. -/
theorem c5_attn_five :
    attention realScalars 1 5 1
      (reshape3 5 5 (layerQ5 realScalars M5 0 0
        (gather (matOf [[2], [9 / 8], [2], [2], [2]]) [0, 1, 2, 3, 4])))
      (layerKV realScalars M5 5 0 0
        ⟨new_cache M5, gather (matOf [[2], [9 / 8], [2], [2], [2]]) [0, 1, 2, 3, 4]⟩).k
      (layerKV realScalars M5 5 0 0
        ⟨new_cache M5, gather (matOf [[2], [9 / 8], [2], [2], [2]]) [0, 1, 2, 3, 4]⟩).v
      0 0 0 = 19 / 25 := by
  rw [attention_uniform realScalars 5 1 _ _ _
    (by norm_num [reshape3]; exact c5_q_zero _ 0 0) Real.exp_zero]
  norm_num [layerKV, writeSlice, layerV5, layerQkv, layerX1, rms_norm, matmul2, sumR, gather,
    matOf, List.getD, new_cache, List.replicate, dfltCache, M5_proj, realScalars_proj,
    sqrt_four, sqrt_twentyfive, sqrt_sixtyfour, sqrt_twotwentyfive]

/-- Helper: the uniform attention average over the 3-token call's value
cache. -/
theorem c5_attn_three :
    attention realScalars 1 3 1
      (reshape3 3 3 (layerQ5 realScalars M5 0 0
        (gather (matOf [[2], [9 / 8], [2], [2], [2]]) [0, 1, 2])))
      (layerKV realScalars M5 3 0 0
        ⟨new_cache M5, gather (matOf [[2], [9 / 8], [2], [2], [2]]) [0, 1, 2]⟩).k
      (layerKV realScalars M5 3 0 0
        ⟨new_cache M5, gather (matOf [[2], [9 / 8], [2], [2], [2]]) [0, 1, 2]⟩).v
      0 0 0 = 11 / 15 := by
  rw [attention_uniform realScalars 3 1 _ _ _
    (by norm_num [reshape3]; exact c5_q_zero _ 0 0) Real.exp_zero]
  norm_num [layerKV, writeSlice, layerV5, layerQkv, layerX1, rms_norm, matmul2, sumR, gather,
    matOf, List.getD, new_cache, List.replicate, dfltCache, M5_proj, realScalars_proj,
    sqrt_four, sqrt_twentyfive, sqrt_sixtyfour, sqrt_twotwentyfive]

/-- Helper: the residual stream entry of token 0 after layer 0 of the
batched 5-token call on `M5`: embedding 2 plus the uniform attention
average `19/25`. -/
theorem c5_x0_five :
    layerAttnX0 realScalars M5 5 0 0 ⟨new_cache M5, gather M5.embed_tokens [0, 1, 2, 3, 4]⟩ 0 0
      = 69 / 25 := by
  simp only [layerAttnX0]
  norm_num [M5_proj, realScalars_proj, Real.sqrt_one, inv_one, matmul2, sumR, reshape3,
    c5_attn_five, gather, matOf, List.getD]

/-- Helper: the same entry after layer 0 of the first chunked call
(3 tokens): embedding 2 plus the uniform attention average `11/15`. -/
theorem c5_x0_three :
    layerAttnX0 realScalars M5 3 0 0 ⟨new_cache M5, gather M5.embed_tokens [0, 1, 2]⟩ 0 0
      = 41 / 15 := by
  simp only [layerAttnX0]
  norm_num [M5_proj, realScalars_proj, Real.sqrt_one, inv_one, matmul2, sumR, reshape3,
    c5_attn_three, gather, matOf, List.getD]

/-- Helper: the layer-1 value projection of `M5` at head 0, token row 0:
the normed residual entry `a / sqrt(a*a + 9/4)` for residual value `a`. -/
theorem layerV5_M5_entry (x0 : Ten2 ℝ) (a : ℝ) (hx : x0 0 0 = a) :
    layerV5 realScalars M5 1 x0 0 0 0 = a / Real.sqrt (a * a + 9 / 4) := by
  norm_num [layerV5, layerQkv, layerX1, rms_norm, matmul2, sumR, M5_proj, realScalars_proj,
    hx, matOf, List.getD]

/-- Helper: the layer-1 cache entry produced by a forward call on `M5` with
sufficient capacities. -/
theorem update_M5_layer1 (tokens : List Nat) (cache : List (LayerCache ℝ)) (pos : Nat)
    (hcap0 : pos + tokens.length ≤ (cache.getD 0 dfltCache).max_seq_len)
    (hcap1 : pos + tokens.length ≤ (cache.getD 1 dfltCache).max_seq_len)
    (hlen : 1 < cache.length) :
    (Transformer.update realScalars ⟨M5⟩ tokens cache pos).fst.getD 1 dfltCache
      = layerKV realScalars M5 tokens.length pos 1
          ⟨cache.set 0 (layerKV realScalars M5 tokens.length pos 0
              ⟨cache, gather M5.embed_tokens tokens⟩),
            layerAttnX0 realScalars M5 tokens.length pos 0
              ⟨cache, gather M5.embed_tokens tokens⟩⟩ := by
  rw [update_M5_fst tokens cache pos hcap0 hcap1]
  have hlen2 : 1 < ((cache.set 0 (layerKV realScalars M5 tokens.length pos 0
      ⟨cache, gather M5.embed_tokens tokens⟩)).length) := by
    simpa [List.length_set] using hlen
  exact getD_set_lt _ 1 _ dfltCache hlen2

/-- Helper: the layer-1 value cache at position 0 after the single batched
call of length 5 on `M5`. -/
theorem c5_single_call_value :
    (((Transformer.update realScalars ⟨M5⟩ [0, 1, 2, 3, 4] (new_cache M5) 0).fst.getD 1
        dfltCache).v 0 0 0)
      = 69 / 25 / Real.sqrt (69 / 25 * (69 / 25) + 9 / 4) := by
  rw [update_M5_layer1 [0, 1, 2, 3, 4] (new_cache M5) 0 (by decide) (by decide) (by decide)]
  simp only [layerKV, writeSlice]
  rw [if_pos (by norm_num : (0 ≤ 0 ∧ 0 < 0 + ([0, 1, 2, 3, 4] : List Nat).length))]
  exact layerV5_M5_entry _ _ c5_x0_five

/-- Helper: the layer-1 value cache at position 0 after the chunked calls
(3 tokens then 2 tokens) on `M5`: the second call does not touch position 0,
so the entry is the first call's. -/
theorem c5_two_call_value :
    (((Transformer.update realScalars ⟨M5⟩ [3, 4]
        (Transformer.update realScalars ⟨M5⟩ [0, 1, 2] (new_cache M5) 0).fst 3).fst.getD 1
        dfltCache).v 0 0 0)
      = 41 / 15 / Real.sqrt (41 / 15 * (41 / 15) + 9 / 4) := by
  rw [update_M5_layer1 [3, 4] _ 3 (by decide) (by decide) (by decide)]
  simp only [layerKV, writeSlice]
  rw [if_neg (by norm_num : ¬ (3 ≤ 0 ∧ 0 < 3 + ([3, 4] : List Nat).length))]
  rw [getD_set _ 0 1 _ dfltCache (by omega)]
  rw [update_M5_layer1 [0, 1, 2] (new_cache M5) 0 (by decide) (by decide) (by decide)]
  simp only [layerKV, writeSlice]
  rw [if_pos (by norm_num : (0 ≤ 0 ∧ 0 < 0 + ([0, 1, 2] : List Nat).length))]
  exact layerV5_M5_entry _ _ c5_x0_three

/-- Claim C5 counterexample: the cache contents after the two chunked calls
(`pos=0, len=3` then `pos=3, len=2`) are NOT numerically identical to the
cache contents after a single call with `pos=0, len=5` on the same inputs:
they differ in the layer-1 value cache at position 0, because within one
call attention normalizes every query row over the whole range
`[0, pos+seq_len)` with no causal mask, so batching changes what earlier
tokens attend to and hence every cache entry computed after layer 0. -/
theorem cache_batch_invariance_counterexample :
    (((Transformer.update realScalars ⟨M5⟩ [3, 4]
        (Transformer.update realScalars ⟨M5⟩ [0, 1, 2] (new_cache M5) 0).fst 3).fst.getD 1
        dfltCache).v 0 0 0)
      ≠ (((Transformer.update realScalars ⟨M5⟩ [0, 1, 2, 3, 4] (new_cache M5) 0).fst.getD 1
        dfltCache).v 0 0 0) := by
  rw [c5_two_call_value, c5_single_call_value]
  exact div_sqrt_ne (by norm_num) (by norm_num) (by norm_num)

/-- Helper: `List.set` beyond the length is a no-op. -/
theorem set_out_of_range {β : Type} (L : List β) (i : Nat) (a : β) (h : L.length ≤ i) :
    L.set i a = L := by
  induction L generalizing i with
  | nil => rfl
  | cons x xs ih =>
    cases i with
    | zero => simp at h
    | succ n => simpa [List.set] using ih n (by simpa using h)

/-- Helper: writing a layer's key/value slice leaves every cache entry at a
position outside `[pos, pos+seq_len)` unchanged, in every layer. -/
theorem set_layerKV_outside {α : Type} [Field α] [LinearOrder α] (S : Scalars α)
    (model : Model α) (seq_len pos l : Nat) (s : PipeState α)
    (lyr hh p c : Nat) (hp : p < pos ∨ pos + seq_len ≤ p) :
    (((s.caches.set l (layerKV S model seq_len pos l s)).getD lyr dfltCache).k hh p c
        = (s.caches.getD lyr dfltCache).k hh p c)
    ∧ (((s.caches.set l (layerKV S model seq_len pos l s)).getD lyr dfltCache).v hh p c
        = (s.caches.getD lyr dfltCache).v hh p c) := by
  by_cases hl : l = lyr
  · subst hl
    by_cases hlt : l < s.caches.length
    · rw [getD_set_lt _ _ _ _ hlt]
      constructor
      · simp only [layerKV]
        exact writeSlice_outside pos seq_len _ _ hh p c hp
      · simp only [layerKV]
        exact writeSlice_outside pos seq_len _ _ hh p c hp
    · rw [set_out_of_range _ _ _ (by omega)]
      exact ⟨rfl, rfl⟩
  · rw [getD_set _ _ _ _ _ hl]
    exact ⟨rfl, rfl⟩

/-- Helper: a layer step never changes cache contents outside the slice
`[pos, pos+seq_len)`, whether it succeeds or fails. -/
theorem layerStep_cache_outside {α : Type} [Field α] [LinearOrder α] (S : Scalars α)
    (model : Model α) (seq_len pos l : Nat) (s : PipeState α)
    (lyr hh p c : Nat) (hp : p < pos ∨ pos + seq_len ≤ p) :
    ((((layerStep S model seq_len pos l s).fst).getD lyr dfltCache).k hh p c
        = (s.caches.getD lyr dfltCache).k hh p c)
    ∧ ((((layerStep S model seq_len pos l s).fst).getD lyr dfltCache).v hh p c
        = (s.caches.getD lyr dfltCache).v hh p c) := by
  simp only [layerStep]
  repeat' split
  all_goals first
    | exact ⟨rfl, rfl⟩
    | exact set_layerKV_outside S model seq_len pos l s lyr hh p c hp

/-- Helper: when a layer step succeeds, the returned state's caches are the
reported cache list. -/
theorem layerStep_ok_caches {α : Type} [Field α] [LinearOrder α] (S : Scalars α)
    (model : Model α) (seq_len pos l : Nat) (s : PipeState α)
    (cs : List (LayerCache α)) (s1 : PipeState α)
    (h : layerStep S model seq_len pos l s = (cs, .ok s1)) : s1.caches = cs := by
  simp only [layerStep] at h
  repeat' split at h
  all_goals simp only [Prod.mk.injEq] at h
  all_goals obtain ⟨ha, hb⟩ := h
  all_goals first
    | exact Except.noConfusion hb
    | (injection hb with h2
       rw [← h2]
       exact ha)

/-- Helper: the layer loop never changes cache contents outside the slice
`[pos, pos+seq_len)`. -/
theorem runLayers_cache_outside {α : Type} [Field α] [LinearOrder α] (S : Scalars α)
    (model : Model α) (seq_len pos : Nat) (lyr hh p c : Nat)
    (hp : p < pos ∨ pos + seq_len ≤ p) :
    ∀ (n l : Nat) (s : PipeState α),
      ((((runLayers S model seq_len pos l n s).fst).getD lyr dfltCache).k hh p c
          = (s.caches.getD lyr dfltCache).k hh p c)
      ∧ ((((runLayers S model seq_len pos l n s).fst).getD lyr dfltCache).v hh p c
          = (s.caches.getD lyr dfltCache).v hh p c) := by
  intro n
  induction n with
  | zero => exact fun l s => ⟨rfl, rfl⟩
  | succ n ih =>
    intro l s
    have hstep := layerStep_cache_outside S model seq_len pos l s lyr hh p c hp
    rcases hres : layerStep S model seq_len pos l s with ⟨cs, r⟩
    rw [hres] at hstep
    cases r with
    | error e => simpa [runLayers, hres] using hstep
    | ok s1 =>
      have h1 := ih (l + 1) s1
      have h3 : s1.caches = cs := layerStep_ok_caches S model seq_len pos l s cs s1 hres
      simp only [runLayers, hres]
      exact ⟨by rw [h1.1, h3, hstep.1], by rw [h1.2, h3, hstep.2]⟩

/-- Helper: a forward call never changes cache contents at positions outside
`[pos, pos + tokens.len)`, in any layer, whether it succeeds or fails. -/
theorem update_cache_outside {α : Type} [Field α] [LinearOrder α] (S : Scalars α)
    (t : Transformer α) (tokens : List Nat) (cache : List (LayerCache α)) (pos : Nat)
    (lyr hh p c : Nat) (hp : p < pos ∨ pos + tokens.length ≤ p) :
    ((((Transformer.update S t tokens cache pos).fst).getD lyr dfltCache).k hh p c
        = (cache.getD lyr dfltCache).k hh p c)
    ∧ ((((Transformer.update S t tokens cache pos).fst).getD lyr dfltCache).v hh p c
        = (cache.getD lyr dfltCache).v hh p c) := by
  have h := runLayers_cache_outside S t.model tokens.length pos lyr hh p c hp
    t.model.num_hidden_layers 0 ⟨cache, gather t.model.embed_tokens tokens⟩
  simp only [Transformer.update, Model.update]
  rcases hr : runLayers S t.model tokens.length pos 0 t.model.num_hidden_layers
      ⟨cache, gather t.model.embed_tokens tokens⟩ with ⟨cs, r⟩
  rw [hr] at h
  cases r <;> simpa using h

/-- Claim C5 amended: each forward call writes only into the cache slice
`[*, pos .. pos+seq_len, *]` — every key/value entry at a position outside
that range, in every layer, is exactly the entry of the caller's cache; in
particular, after a second sequential call at `pos + tokens.len`, all
positions below `pos + tokens.len` still hold the first call's contents, so
chunked calls append.  (The numeric identity with a single batched call
fails beyond the first layer — see the counterexample.) -/
theorem cache_append_disjoint {α : Type} [Field α] [LinearOrder α] (S : Scalars α)
    (t : Transformer α) (tokens : List Nat) (cache : List (LayerCache α)) (pos : Nat)
    (lyr hh p c : Nat) (hp : p < pos ∨ pos + tokens.length ≤ p) :
    (((((Transformer.update S t tokens cache pos).fst).getD lyr dfltCache).k hh p c
        = (cache.getD lyr dfltCache).k hh p c)
      ∧ ((((Transformer.update S t tokens cache pos).fst).getD lyr dfltCache).v hh p c
        = (cache.getD lyr dfltCache).v hh p c))
    ∧ ∀ (tokens2 : List Nat) (q cc : Nat), q < pos + tokens.length →
        ((((Transformer.update S t tokens2 (Transformer.update S t tokens cache pos).fst
              (pos + tokens.length)).fst.getD lyr dfltCache).k hh q cc
            = ((Transformer.update S t tokens cache pos).fst.getD lyr dfltCache).k hh q cc)
        ∧ (((Transformer.update S t tokens2 (Transformer.update S t tokens cache pos).fst
              (pos + tokens.length)).fst.getD lyr dfltCache).v hh q cc
            = ((Transformer.update S t tokens cache pos).fst.getD lyr dfltCache).v hh q cc)) :=
  ⟨update_cache_outside S t tokens cache pos lyr hh p c hp,
    fun tokens2 q cc hq2 =>
      update_cache_outside S t tokens2 (Transformer.update S t tokens cache pos).fst
        (pos + tokens.length) lyr hh q cc (Or.inl hq2)⟩

theorem cache_append_disjoint_witness :
    (1 < 0 ∨ 0 + ([0] : List Nat).length ≤ 1)
    ∧ ((((Transformer.update ratScalars ⟨qm⟩ [0] (new_cache qm) 0).fst.getD 0
          dfltCache).k 0 1 0 = ((new_cache qm).getD 0 dfltCache).k 0 1 0)
      ∧ (((Transformer.update ratScalars ⟨qm⟩ [0] (new_cache qm) 0).fst.getD 0
          dfltCache).v 0 1 0 = ((new_cache qm).getD 0 dfltCache).v 0 1 0)) :=
  ⟨by decide,
    (cache_append_disjoint ratScalars ⟨qm⟩ [0] (new_cache qm) 0 0 0 1 0 (by decide)).1⟩
